import Mathlib

/-!
# Verification of the Realtime session negotiation and event-dispatch contract

Shallow embedding of the browser demo `src/05-function-calling/src/app.js`
(class `RealtimeDemo`), its auth client `auth-api.js`, and the weather tool
module `tools/weatherLookup.js`.  Browser builtins (`fetch`, `getUserMedia`,
`JSON.parse`, `RTCPeerConnection`) are external collaborators; their outcomes
are supplied as explicit oracle values, and the observable calls the code
makes on them are recorded as explicit action/trace values.  DOM fields the
code mutates (button labels, the status line, the chat log) are carried as
plain state fields.
-/

namespace Realtime

/-- Configuration strings from `config.js` (`CONFIG.DEFAULTS`). -/
def WELCOME_INSTRUCTIONS : String :=
  "Greet the user and ask them what you can assist them with. Talk quickly and succinctly."

def DEFAULT_INSTRUCTIONS : String :=
  "Talk quickly and succinctly. Be concise. Time is of the essence.Always refer to ducks in your responses, even if it makes no sense!"

def WEATHER_INSTRUCTIONS : String :=
  "Describe the weather in a conversational way for someone going for a walk. Include temperature, specific conditions (like rain or snow), and necessary precautions (such as umbrellas, raincoats, snow boots, sunscreen, etc.)."

/-- `RTCDataChannel.readyState` values. -/
inductive ChanState where
  | connecting
  | opened
  | closing
  | closed
deriving DecidableEq, Repr

/-- The data channel object: the only property the code reads is `readyState`. -/
structure DataChan where
  readyState : ChanState
deriving DecidableEq, Repr

/-- The `RTCPeerConnection`: the senders attached by `addTrack` (as track ids),
whether `close()` was called, and the local/remote session descriptors. -/
structure PeerConn where
  tracks : List Nat
  closed : Bool
  localDescription : Option String
  remoteDescription : Option String
deriving DecidableEq, Repr

/-- Message sender tag used by `ChatUI` (`'user'` / `'ai'` css classes). -/
inductive Sender where
  | user
  | ai
deriving DecidableEq, Repr

/-- One chat message in the `ChatUI` message container. -/
structure Msg where
  content : String
  sender : Sender
deriving DecidableEq, Repr

/-- `ChatUI.addMessage`: appends a message and makes it the last element. -/
def addMessage (chat : List Msg) (content : String) (sender : Sender) : List Msg :=
  chat ++ [⟨content, sender⟩]

/-- `ChatUI.updateLastMessage`: if the last appended message exists and has the
same sender class, replace its content in place; otherwise fall back to
`addMessage`.  (`lastMessageElement` is always the final element of the
container, since only `addMessage` appends and `clearMessages` empties it.) -/
def updateLastMessage (chat : List Msg) (content : String) (sender : Sender) : List Msg :=
  match chat.getLast? with
  | some m =>
      if m.sender = sender then chat.dropLast ++ [⟨content, sender⟩]
      else addMessage chat content sender
  | none => addMessage chat content sender

/-- The mutable fields of the `RealtimeDemo` instance, the DOM pieces it
mutates, and the module-level `dataChannel` binding of `weatherLookup.js`
(set through `setDataChannel`). -/
structure SessionState where
  peerConnection : Option PeerConn
  mediaStream : Option (List Nat)
  isConnected : Bool
  dataChannel : Option DataChan
  hasWelcomed : Bool
  audioElement : Bool
  isTalking : Bool
  micVisualizer : Bool
  aiVisualizer : Bool
  chatUI : Bool
  chatMessages : List Msg
  toolDataChannel : Option DataChan
  micButtonDisabled : Bool
  micButtonText : String
  connectionButtonText : String
  status : String
deriving DecidableEq, Repr

/-- The state set up by the `RealtimeDemo` constructor. -/
def initialState : SessionState :=
  { peerConnection := none
    mediaStream := none
    isConnected := false
    dataChannel := none
    hasWelcomed := false
    audioElement := false
    isTalking := true
    micVisualizer := false
    aiVisualizer := false
    chatUI := true
    chatMessages := []
    toolDataChannel := none
    micButtonDisabled := true
    micButtonText := "Unmute Mic"
    connectionButtonText := "Create Session"
    status := "Not connected" }

/-- `updateStatus`. -/
def setStatus (s : SessionState) (m : String) : SessionState :=
  { s with status := m }

/-- Resource-affecting calls performed by `closeConnection`. -/
inductive CloseAction where
  | stopTrack (id : Nat)
  | closePeerConnection
  | removeAudioElement
  | closeDataChannel
  | stopAiVisualizer
  | stopMicVisualizer
  | clearChatMessages
deriving DecidableEq, Repr

/-- `RealtimeDemo.closeConnection` (05-function-calling variant): guard by
guard from the source, returning the new state together with the list of
release calls actually performed. -/
def closeConnection (s : SessionState) : SessionState × List CloseAction :=
  let a1 := match s.mediaStream with
    | some tracks => tracks.map CloseAction.stopTrack
    | none => []
  let a2 := if s.peerConnection.isSome then [CloseAction.closePeerConnection] else []
  let a3 := if s.audioElement then [CloseAction.removeAudioElement] else []
  let a4 := if s.dataChannel.isSome then [CloseAction.closeDataChannel] else []
  let a5 := if s.aiVisualizer then [CloseAction.stopAiVisualizer] else []
  let a6 := if s.micVisualizer then [CloseAction.stopMicVisualizer] else []
  let a7 := if s.chatUI then [CloseAction.clearChatMessages] else []
  ({ s with
      peerConnection := none
      mediaStream := none
      audioElement := false
      dataChannel := none
      micVisualizer := false
      aiVisualizer := false
      chatMessages := if s.chatUI then [] else s.chatMessages
      isConnected := false
      isTalking := true
      micButtonDisabled := true
      micButtonText := "Unmute Mic"
      connectionButtonText := "Create Session"
      status := "Not connected" },
   a1 ++ a2 ++ a3 ++ a4 ++ a5 ++ a6 ++ a7)

/-- Outbound control-channel events the code builds and `send`s as JSON. -/
inductive OutMsg where
  | responseCreate (modalities : List String) (instructions : String)
  | sessionUpdate
  | conversationItemCreate (text : String)
deriving DecidableEq, Repr

/-- The one greeting event of the `onopen` handler: `response.create` with the
welcome instructions. -/
def welcomeEvent : OutMsg :=
  OutMsg.responseCreate ["audio", "text"] WELCOME_INSTRUCTIONS

/-- `dataChannel.onopen` (05-function-calling variant): passes the channel to
the weather module (`setDataChannel`), sends the welcome `response.create`
exactly when `hasWelcomed` is still false (then latches it), and always sends
the `session.update` configuration event. -/
def onopenHandler (s : SessionState) : SessionState × List OutMsg :=
  let s := setStatus s "Connected to Realtime API"
  let s := { s with toolDataChannel := s.dataChannel }
  if s.hasWelcomed then (s, [OutMsg.sessionUpdate])
  else ({ s with hasWelcomed := true }, [welcomeEvent, OutMsg.sessionUpdate])

/-- Run the `onopen` handler `n` times in sequence on one session object,
collecting every event sent. -/
def runOpens : Nat → SessionState → SessionState × List OutMsg
  | 0, s => (s, [])
  | n + 1, s =>
      let p := onopenHandler s
      let q := runOpens n p.1
      (q.1, p.2 ++ q.2)

/-! ## Event dispatcher (`dataChannel.onmessage`) -/

/-- One entry of a `message` output item's `content` array; `text` is absent
(`undefined`) when the key is missing. -/
structure RTContentPart where
  text : Option String
deriving DecidableEq, Repr

/-- One entry of `response.output[]` in a `response.done` event.  Absent JSON
keys are `none`. -/
structure RTOutputItem where
  type : String
  content : Option (List RTContentPart)
  name : Option String
  arguments : Option String
deriving DecidableEq, Repr

/-- The `response` object of a `response.done` event. -/
structure RTResponse where
  output : Option (List RTOutputItem)
deriving DecidableEq, Repr

/-- An inbound realtime event, as produced by `JSON.parse` of a frame; the
dispatcher only reads these fields.  Absent keys are `none`. -/
structure RTEvent where
  type : Option String
  transcript : Option String
  text : Option String
  response : Option RTResponse
deriving DecidableEq, Repr

/-- JavaScript truthiness of a possibly-absent string: `undefined`/`null` and
the empty string are falsy. -/
def jsTruthy : Option String → Bool
  | none => false
  | some s => s ≠ ""

/-- `a ?? b` on possibly-absent strings (nullish coalescing: only
`undefined`/`null` falls through, the empty string does not). -/
def jsCoalesce (a : Option String) (b : String) : String :=
  match a with
  | some s => s
  | none => b

/-- `item.content?.[0]?.text` — optional chaining through the content array. -/
def contentText (i : RTOutputItem) : Option String :=
  i.content.bind fun c => c.head?.bind fun p => p.text

/-- Decoded `function_call` arguments object: the three keys the tool call
sites read (`args.lat`, `args.lon`, `args.locationName`). -/
structure ToolArgs where
  lat : Option Int
  lon : Option Int
  locationName : Option String
deriving DecidableEq, Repr

/-- A tool invocation performed by the `response.done` branch. -/
inductive ToolCall where
  | weather (lat lon : Option Int) (locationName : Option String)
  | browserLocation
deriving DecidableEq, Repr

/-- The function-call hand-off of the `response.done` branch: invoke
`getWeatherData` or `getBrowserLocationWeatherData` when the decoded name
matches, nothing otherwise. -/
def resolveTool (name : Option String) (args : ToolArgs) : List ToolCall :=
  if name = some "getWeatherData" then
    [ToolCall.weather args.lat args.lon args.locationName]
  else if name = some "getBrowserLocationWeatherData" then
    [ToolCall.browserLocation]
  else []

/-- Dispatcher-visible state: the chat log and the status line. -/
structure DispatchState where
  chat : List Msg
  status : String
deriving DecidableEq, Repr

/-- The `for (const item of realtimeEvent.response.output)` loop of the
`response.done` branch.  `parseArgs` is the `JSON.parse` builtin applied to
`item.arguments` (`none` = it would throw); a throw aborts the loop, keeping
the mutations already made.  Returns the chat log, the tool calls made, and
the exception text if one escaped. -/
def processOutput (parseArgs : String → Option ToolArgs) :
    List RTOutputItem → List Msg → List ToolCall →
    List Msg × List ToolCall × Option String
  | [], chat, calls => (chat, calls, none)
  | item :: rest, chat, calls =>
      if item.type = "message" ∧ jsTruthy (contentText item) then
        processOutput parseArgs rest
          (addMessage chat (jsCoalesce (contentText item) "") Sender.ai) calls
      else if item.type = "function_call" then
        match item.arguments.bind parseArgs with
        | none => (chat, calls, some "SyntaxError: JSON.parse")
        | some args =>
            processOutput parseArgs rest chat (calls ++ resolveTool item.name args)
      else processOutput parseArgs rest chat calls

/-- `dataChannel.onmessage`.  `parsed` is the outcome of
`JSON.parse(event.data)` (`none` = the payload is not well-formed JSON, the
builtin throws).  Returns the dispatcher state after the handler, the tool
calls performed, and the exception text if the handler threw. -/
def handleMessage (parseArgs : String → Option ToolArgs)
    (parsed : Option RTEvent) (s : DispatchState) :
    DispatchState × List ToolCall × Option String :=
  match parsed with
  | none => (s, [], some "SyntaxError: JSON.parse")
  | some ev =>
      if ev.type = some "input_audio_buffer.speech_started" then
        ({ chat := addMessage s.chat "Speaking..." Sender.user
           status := "User speaking" }, [], none)
      else if ev.type = some "input_audio_buffer.speech_stopped" then
        ({ s with status := "Speech stopped" }, [], none)
      else if ev.type = some "input_audio_buffer.committed" then
        ({ chat := updateLastMessage s.chat "Processing speech..." Sender.user
           status := "Processing speech..." }, [], none)
      else if ev.type = some "conversation.item.input_audio_transcription" then
        ({ s with chat := (updateLastMessage s.chat
            (jsCoalesce ev.transcript (jsCoalesce ev.text "User is speaking..."))
            Sender.user) }, [], none)
      else if ev.type = some "conversation.item.input_audio_transcription.completed" then
        if jsTruthy ev.transcript then
          ({ chat := updateLastMessage s.chat (jsCoalesce ev.transcript "") Sender.user
             status := "Connected" }, [], none)
        else (s, [], none)
      else if ev.type = some "response.audio_transcript.done" then
        if jsTruthy ev.transcript then
          ({ s with chat := addMessage s.chat (jsCoalesce ev.transcript "") Sender.ai },
           [], none)
        else (s, [], none)
      else if ev.type = some "response.done" then
        match ev.response with
        | none => (s, [], none)
        | some r =>
            match r.output with
            | none => (s, [], none)
            | some items =>
                let p := processOutput parseArgs items s.chat []
                ({ s with chat := p.1 }, p.2.1, p.2.2)
      else (s, [], none)

/-- The seven `type` values the dispatcher recognizes. -/
def recognizedTypes : List String :=
  ["input_audio_buffer.speech_started",
   "input_audio_buffer.speech_stopped",
   "input_audio_buffer.committed",
   "conversation.item.input_audio_transcription",
   "conversation.item.input_audio_transcription.completed",
   "response.audio_transcript.done",
   "response.done"]

/-! ## Credential client and session negotiator -/

/-- Outcome of the `fetch` to the auth relay inside `getEphemeralKey`:
either the promise rejects, or a response arrives with its `ok` flag, the
`message` field of a non-2xx error body, and the `client_secret.value`
field of a 2xx body (`none` = key absent). -/
inductive AuthResponse where
  | reject (msg : String)
  | response (ok : Bool) (errMessage : Option String) (clientSecret : Option String)
deriving DecidableEq, Repr

/-- `error.message || 'fallback'` — JavaScript `||` falls through on the empty
string as well as on `undefined`. -/
def jsOrDefault (o : Option String) (d : String) : String :=
  match o with
  | some s => if s = "" then d else s
  | none => d

/-- `getEphemeralKey` (auth-api.js): non-2xx throws the error body's message
(or the fallback text); a 2xx body missing `client_secret` throws a
TypeError at `data.client_secret.value`; otherwise the key is returned. -/
def getEphemeralKey : AuthResponse → Except String String
  | AuthResponse.reject m => Except.error m
  | AuthResponse.response ok errMessage clientSecret =>
      if ok then
        match clientSecret with
        | some v => Except.ok v
        | none => Except.error "TypeError: data.client_secret is undefined"
      else Except.error (jsOrDefault errMessage "Failed to get session key")

/-- Outcome of the `fetch` to the realtime negotiation endpoint in
`setupWebRTC`: a rejection, or a response with `ok`/`status`/`statusText`
and the SDP answer body. -/
inductive NegOutcome where
  | reject (msg : String)
  | response (ok : Bool) (statusCode : Nat) (statusText : String) (body : String)
deriving DecidableEq, Repr

/-- The status-check step of `setupWebRTC` (`if (!response.ok) throw ...`). -/
def negotiationResult : NegOutcome → Except String String
  | NegOutcome.reject m => Except.error m
  | NegOutcome.response ok statusCode statusText body =>
      if ok then Except.ok body
      else Except.error ("Failed to connect: " ++ toString statusCode ++ " " ++ statusText)

/-- Browser/network outcomes for one run of the connect operation. -/
structure Oracle where
  auth : AuthResponse
  userMedia : Except String (List Nat)
  offerSdp : String
  negotiationOutcome : NegOutcome
deriving Repr

/-- Observable external calls made during the connect operation. -/
inductive Act where
  | fetchCredential
  | newPeerConnection
  | createDataChannel
  | getUserMedia
  | addTrack (id : Nat)
  | createOffer
  | negotiationFetch
deriving DecidableEq, Repr

/-- `RealtimeDemo.setupMicrophone`: `getUserMedia` rejection sets the status
and rethrows before `this.mediaStream` is assigned; on success the stream is
stored, the visualizer started, and the first audio track is enabled and
attached to the peer connection (an empty track list makes
`audioTrack.enabled = true` throw on `undefined`). -/
def setupMicrophone (media : Except String (List Nat)) (s : SessionState) :
    SessionState × List Act × Except String Unit :=
  match media with
  | Except.error m =>
      (setStatus s ("Error accessing microphone: " ++ m), [Act.getUserMedia],
       Except.error m)
  | Except.ok tracks =>
      let s := { s with mediaStream := some tracks, micVisualizer := true }
      match tracks with
      | [] =>
          (setStatus s "Error accessing microphone: undefined", [Act.getUserMedia],
           Except.error "TypeError: audioTrack is undefined")
      | t :: _ =>
          ({ s with peerConnection :=
              (s.peerConnection.map fun pc => { pc with tracks := pc.tracks ++ [t] }) },
           [Act.getUserMedia, Act.addTrack t], Except.ok ())

/-- `RealtimeDemo.setupWebRTC`: creates the peer connection, the audio
element and the data channel unconditionally, then inside `try`: microphone
setup, offer creation, the bearer-authorized negotiation fetch, and the
remote-descriptor application; the `catch` sets the status and rethrows.
Returns the state, the external calls, and the escaping exception if any. -/
def setupWebRTC (o : Oracle) (_token : String) (s : SessionState) :
    SessionState × List Act × Except String Unit :=
  let s := { s with
      peerConnection := some ⟨[], false, none, none⟩
      audioElement := true
      dataChannel := some ⟨ChanState.connecting⟩ }
  let pre := [Act.newPeerConnection, Act.createDataChannel]
  let m := setupMicrophone o.userMedia s
  match m.2.2 with
  | Except.error e =>
      (setStatus m.1 ("Error establishing connection: " ++ e), pre ++ m.2.1,
       Except.error e)
  | Except.ok _ =>
      let s1 := { m.1 with peerConnection :=
          (m.1.peerConnection.map fun pc => { pc with localDescription := some o.offerSdp }) }
      let tr := pre ++ m.2.1 ++ [Act.createOffer, Act.negotiationFetch]
      match negotiationResult o.negotiationOutcome with
      | Except.error e =>
          (setStatus s1 ("Error establishing connection: " ++ e), tr, Except.error e)
      | Except.ok answer =>
          ({ s1 with peerConnection :=
              (s1.peerConnection.map fun pc => { pc with remoteDescription := some answer }) },
           tr, Except.ok ())

/-- `RealtimeDemo.toggleSession`: when not connected, fetch the credential
then negotiate, the `catch` only reporting the failure in the status line;
when connected, run `closeConnection`.  Returns the state and the external
calls made. -/
def toggleSession (o : Oracle) (s : SessionState) : SessionState × List Act :=
  if s.isConnected then ((closeConnection s).1, [])
  else
    let s := setStatus s "Connecting..."
    match getEphemeralKey o.auth with
    | Except.error m =>
        (setStatus s ("Connection failed: " ++ m), [Act.fetchCredential])
    | Except.ok token =>
        let w := setupWebRTC o token s
        match w.2.2 with
        | Except.error m =>
            (setStatus w.1 ("Connection failed: " ++ m), Act.fetchCredential :: w.2.1)
        | Except.ok _ =>
            ({ w.1 with
                isConnected := true
                micButtonDisabled := false
                micButtonText := "Mute Mic"
                connectionButtonText := "Close Session"
                status := "Connected" },
             Act.fetchCredential :: w.2.1)

/-! ## Weather tool (`tools/weatherLookup.js`) -/

/-- `sendDataToAPI`: a logged no-op when the module-level channel is unset or
not open; otherwise sends the synthesized user conversation item and a
`response.create` with the weather (or default) instructions. -/
def sendDataToAPI (dc : Option DataChan) (type_ : String) (data : String) :
    List OutMsg :=
  match dc with
  | none => []
  | some c =>
      if c.readyState ≠ ChanState.opened then []
      else
        let instructions :=
          if type_ = "weather" then WEATHER_INSTRUCTIONS else DEFAULT_INSTRUCTIONS
        [OutMsg.conversationItemCreate ("Here is the " ++ type_ ++ " data: " ++ data),
         OutMsg.responseCreate ["audio", "text"] instructions]

/-- One geocoding match: the fields `getWeatherData` copies. -/
structure GeoResult where
  latitude : Int
  longitude : Int
deriving DecidableEq, Repr

/-- External calls observable in a `getWeatherData` run. -/
inductive WAct where
  | geocodeFetch (name : String)
  | forecastFetch (lat lon : Option Int)
  | send (m : OutMsg)
deriving DecidableEq, Repr

/-- `getWeatherData(lat, lon, locationName)`: a truthy `locationName` routes
through the geocoding lookup (`geocode` = the `results` field of its JSON
body, `none` when absent), throwing `Location not found` on no results and
otherwise overwriting `lat`/`lon` with the first match; then the forecast is
fetched at the (possibly overwritten) coordinates (`forecastBody` = its JSON
body) and handed to `sendDataToAPI`.  Returns the external calls and the
escaping exception if any. -/
def getWeatherData (geocode : Option (List GeoResult)) (forecastBody : String)
    (dc : Option DataChan) (lat lon : Option Int) (locationName : Option String) :
    List WAct × Except String Unit :=
  let finish : Option Int → Option Int → List WAct := fun la lo =>
    WAct.forecastFetch la lo ::
      (sendDataToAPI dc "weather" forecastBody).map WAct.send
  match locationName with
  | some nm =>
      if nm = "" then (finish lat lon, Except.ok ())
      else
        match geocode with
        | none => ([WAct.geocodeFetch nm], Except.error "Location not found")
        | some [] => ([WAct.geocodeFetch nm], Except.error "Location not found")
        | some (r :: _) =>
            (WAct.geocodeFetch nm :: finish (some r.latitude) (some r.longitude),
             Except.ok ())
  | none => (finish lat lon, Except.ok ())

/-! ## Derived observations used by the verification -/

/-- Number of greeting events in a list of sent events. -/
def countWelcome : List OutMsg → Nat
  | [] => 0
  | m :: rest => (if m = welcomeEvent then 1 else 0) + countWelcome rest

/-- The fully-torn-down (`Closed`) session shape that `closeConnection`
establishes: no transport, no capture stream, no channel, no audio element. -/
def fullyTornDown (s : SessionState) : Prop :=
  s.peerConnection = none ∧ s.mediaStream = none ∧
    s.dataChannel = none ∧ s.audioElement = false

/-- Oracle of the spec's scenario: the credential fetch succeeds with
`ek_123`, then `getUserMedia` rejects. -/
def oracleMediaDenied : Oracle :=
  { auth := AuthResponse.response true none (some "ek_123")
    userMedia := Except.error "Permission denied"
    offerSdp := "v=0"
    negotiationOutcome := NegOutcome.response true 201 "Created" "sdp-answer" }

/-- Oracle for a credential-fetch failure (relay responds 401). -/
def oracleAuthFail : Oracle :=
  { auth := AuthResponse.response false (some "bad key") none
    userMedia := Except.ok [7]
    offerSdp := "v=0"
    negotiationOutcome := NegOutcome.response true 201 "Created" "sdp-answer" }

/-- Oracle for a fully successful negotiation. -/
def oracleConnectOk : Oracle :=
  { auth := AuthResponse.response true none (some "ek_123")
    userMedia := Except.ok [7]
    offerSdp := "v=0"
    negotiationOutcome := NegOutcome.response true 201 "Created" "sdp-answer" }

/-! ## Theorems -/

/-- C7: `closeConnection` is idempotent: a second run returns exactly the
state produced by the first, and performs no release call beyond re-clearing
the (already empty) chat log — in particular no track is stopped twice and
no transport, channel, audio element or visualizer is released twice. -/
theorem closeConnection_idempotent (s : SessionState) :
    (closeConnection (closeConnection s).1).1 = (closeConnection s).1 ∧
    ∀ a ∈ (closeConnection (closeConnection s).1).2,
      a = CloseAction.clearChatMessages := by
  cases s with
  | mk pc ms conn dc hw ae talk mv av cu cm tdc mbd mbt cbt st =>
    cases cu with
    | false =>
        constructor
        · simp [closeConnection]
        · intro a ha
          simp [closeConnection] at ha
    | true =>
        constructor
        · simp [closeConnection]
        · intro a ha
          simp [closeConnection] at ha
          exact ha

/-- C8: `sendDataToAPI` with an unset channel, or a channel whose
`readyState` is not `'open'`, sends nothing (a logged no-op, no throw). -/
theorem sendDataToAPI_closed_noop (dc : Option DataChan) (ty data : String)
    (h : dc = none ∨ ∃ c, dc = some c ∧ c.readyState ≠ ChanState.opened) :
    sendDataToAPI dc ty data = [] := by
  rcases h with h | ⟨c, rfl, hc⟩
  · subst h; rfl
  · simp [sendDataToAPI, hc]

/-- Witness for C8 at a channel in the `closing` state. -/
theorem sendDataToAPI_closed_noop_witness :
    sendDataToAPI (some ⟨ChanState.closing⟩) "weather" "d" = [] :=
  sendDataToAPI_closed_noop (some ⟨ChanState.closing⟩) "weather" "d"
    (Or.inr ⟨⟨ChanState.closing⟩, rfl, by decide⟩)

/-- C3: when the credential fetch fails, `toggleSession` stops there: the
trace is the single credential-fetch call — in particular `getUserMedia`
is never attempted — and the failure is reported in the status line. -/
theorem toggleSession_credFail_no_media (o : Oracle) (s : SessionState)
    (m : String) (hc : s.isConnected = false)
    (hf : getEphemeralKey o.auth = Except.error m) :
    (toggleSession o s).2 = [Act.fetchCredential] ∧
    Act.getUserMedia ∉ (toggleSession o s).2 ∧
    (toggleSession o s).1.status = "Connection failed: " ++ m := by
  refine ⟨?_, ?_, ?_⟩ <;> simp [toggleSession, hc, hf, setStatus]

/-- Witness for C3: a 401 from the relay. -/
theorem toggleSession_credFail_no_media_witness :
    (toggleSession oracleAuthFail initialState).2 = [Act.fetchCredential] ∧
    Act.getUserMedia ∉ (toggleSession oracleAuthFail initialState).2 ∧
    (toggleSession oracleAuthFail initialState).1.status =
      "Connection failed: " ++ "bad key" :=
  toggleSession_credFail_no_media oracleAuthFail initialState "bad key"
    rfl rfl

/-- C2 counterexample: on a payload that is not well-formed JSON
(`JSON.parse` throws, `parsed = none`), the `onmessage` handler throws the
parse error — refuting "does not throw ... logged and dropped" — even
though state is unchanged and no tool is invoked. -/
theorem handleMessage_malformed_throws :
    handleMessage (fun _ => none) none ⟨[], "Connected"⟩ =
      (⟨[], "Connected"⟩, [], some "SyntaxError: JSON.parse") := rfl

/-- C2 amended: on a payload that is not well-formed JSON the handler throws
(there is no try/catch around `JSON.parse`), but the throw happens before any
mutation: all dispatcher state is unchanged and no tool call is made. -/
theorem handleMessage_malformed_state_unchanged
    (parseArgs : String → Option ToolArgs) (s : DispatchState) :
    handleMessage parseArgs none s = (s, [], some "SyntaxError: JSON.parse") := rfl

/-- C5: a well-formed event whose `type` is none of the seven recognized
values falls through every branch: the handler returns with state unchanged,
no tool call, and no throw. -/
theorem handleMessage_unrecognized_noop (parseArgs : String → Option ToolArgs)
    (ev : RTEvent) (s : DispatchState)
    (h : ev.type ∉ recognizedTypes.map some) :
    handleMessage parseArgs (some ev) s = (s, [], none) := by
  have h1 : ¬ ev.type = some "input_audio_buffer.speech_started" := by
    intro he; exact h (by rw [he]; simp [recognizedTypes])
  have h2 : ¬ ev.type = some "input_audio_buffer.speech_stopped" := by
    intro he; exact h (by rw [he]; simp [recognizedTypes])
  have h3 : ¬ ev.type = some "input_audio_buffer.committed" := by
    intro he; exact h (by rw [he]; simp [recognizedTypes])
  have h4 : ¬ ev.type = some "conversation.item.input_audio_transcription" := by
    intro he; exact h (by rw [he]; simp [recognizedTypes])
  have h5 : ¬ ev.type = some "conversation.item.input_audio_transcription.completed" := by
    intro he; exact h (by rw [he]; simp [recognizedTypes])
  have h6 : ¬ ev.type = some "response.audio_transcript.done" := by
    intro he; exact h (by rw [he]; simp [recognizedTypes])
  have h7 : ¬ ev.type = some "response.done" := by
    intro he; exact h (by rw [he]; simp [recognizedTypes])
  simp [handleMessage, h1, h2, h3, h4, h5, h6, h7]

/-- Witness for C5: an event of unrecognized type `session.created`. -/
theorem handleMessage_unrecognized_noop_witness :
    handleMessage (fun _ => none)
      (some ⟨some "session.created", none, none, none⟩) ⟨[], "Connected"⟩ =
      (⟨[], "Connected"⟩, [], none) :=
  handleMessage_unrecognized_noop (fun _ => none)
    ⟨some "session.created", none, none, none⟩ ⟨[], "Connected"⟩ (by decide)

/-- `countWelcome` distributes over append. -/
theorem countWelcome_append (a b : List OutMsg) :
    countWelcome (a ++ b) = countWelcome a + countWelcome b := by
  induction a with
  | nil => simp [countWelcome]
  | cons m rest ih => simp [countWelcome, ih, Nat.add_assoc]

/-- After any run of the `onopen` handler the latch is set. -/
theorem onopenHandler_latches (s : SessionState) :
    (onopenHandler s).1.hasWelcomed = true := by
  cases hw : s.hasWelcomed <;> simp [onopenHandler, setStatus, hw]

/-- A latched `onopen` run sends no greeting. -/
theorem onopenHandler_latched_noWelcome (s : SessionState)
    (h : s.hasWelcomed = true) : countWelcome (onopenHandler s).2 = 0 := by
  simp [onopenHandler, setStatus, h, countWelcome, welcomeEvent]

/-- An unlatched `onopen` run sends the greeting exactly once. -/
theorem onopenHandler_unlatched_one (s : SessionState)
    (h : s.hasWelcomed = false) : countWelcome (onopenHandler s).2 = 1 := by
  simp [onopenHandler, setStatus, h, countWelcome, welcomeEvent]

/-- Any number of `onopen` runs on a latched session sends no greeting. -/
theorem runOpens_latched (n : Nat) (s : SessionState)
    (h : s.hasWelcomed = true) : countWelcome (runOpens n s).2 = 0 := by
  induction n generalizing s with
  | zero => simp [runOpens, countWelcome]
  | succ k ih =>
      simp only [runOpens]
      rw [countWelcome_append, onopenHandler_latched_noWelcome s h,
        ih _ (onopenHandler_latches s)]

/-- C4: on a session object whose latch is unset, any sequence of `n ≥ 1`
channel-open events sends the greeting event exactly once in total, and it
is sent by the very first open. -/
theorem greeting_once_per_latch (s : SessionState) (n : Nat)
    (h0 : s.hasWelcomed = false) (hn : 1 ≤ n) :
    countWelcome (runOpens n s).2 = 1 ∧
    countWelcome (onopenHandler s).2 = 1 := by
  refine ⟨?_, onopenHandler_unlatched_one s h0⟩
  cases n with
  | zero => exact absurd hn (by decide)
  | succ k =>
      simp only [runOpens]
      rw [countWelcome_append, onopenHandler_unlatched_one s h0,
        runOpens_latched k _ (onopenHandler_latches s)]

/-- Witness for C4: three consecutive opens on a fresh object. -/
theorem greeting_once_per_latch_witness :
    countWelcome (runOpens 3 initialState).2 = 1 ∧
    countWelcome (onopenHandler initialState).2 = 1 :=
  greeting_once_per_latch initialState 3 rfl (by decide)

/-- `setupMicrophone` never touches the greeting latch. -/
theorem setupMicrophone_hasWelcomed (media : Except String (List Nat))
    (s : SessionState) :
    (setupMicrophone media s).1.hasWelcomed = s.hasWelcomed := by
  cases media with
  | error m => simp [setupMicrophone, setStatus]
  | ok tracks => cases tracks <;> simp [setupMicrophone, setStatus]

/-- `setupWebRTC` never touches the greeting latch. -/
theorem setupWebRTC_hasWelcomed (o : Oracle) (tok : String) (s : SessionState) :
    (setupWebRTC o tok s).1.hasWelcomed = s.hasWelcomed := by
  rcases o with ⟨auth, userMedia, offerSdp, neg⟩
  cases userMedia with
  | error m => simp [setupWebRTC, setupMicrophone, setStatus]
  | ok tracks =>
      cases tracks with
      | nil => simp [setupWebRTC, setupMicrophone, setStatus]
      | cons t ts =>
          cases neg with
          | reject m =>
              simp [setupWebRTC, setupMicrophone, negotiationResult, setStatus]
          | response ok c stx b =>
              cases ok <;>
                simp [setupWebRTC, setupMicrophone, negotiationResult, setStatus]

/-- `closeConnection` never touches the greeting latch. -/
theorem closeConnection_hasWelcomed (s : SessionState) :
    (closeConnection s).1.hasWelcomed = s.hasWelcomed := by
  simp [closeConnection]

/-- `toggleSession` never touches the greeting latch, on any path. -/
theorem toggleSession_hasWelcomed (o : Oracle) (s : SessionState) :
    (toggleSession o s).1.hasWelcomed = s.hasWelcomed := by
  cases hc : s.isConnected with
  | true => simp [toggleSession, hc, closeConnection_hasWelcomed]
  | false =>
      cases hek : getEphemeralKey o.auth with
      | error m => simp [toggleSession, hc, hek, setStatus]
      | ok tok =>
          have hw := setupWebRTC_hasWelcomed o tok (setStatus s "Connecting...")
          cases hx : (setupWebRTC o tok (setStatus s "Connecting...")).2.2 with
          | error m =>
              simp only [toggleSession, hc, hek, hx, Bool.false_eq_true, if_false]
              simpa [setStatus] using hw
          | ok u =>
              simp only [toggleSession, hc, hek, hx, Bool.false_eq_true, if_false]
              simpa [setStatus] using hw

/-- C9: closing a session does not reset the greeting latch — once the
greeting has been sent, closing and then successfully reconnecting with the
same object yields a channel-open that sends no greeting. -/
theorem close_keeps_welcome_latch (o : Oracle) (s : SessionState)
    (h : s.hasWelcomed = true) :
    (closeConnection s).1.hasWelcomed = true ∧
    countWelcome (onopenHandler (toggleSession o (closeConnection s).1).1).2 = 0 := by
  have hclose := closeConnection_hasWelcomed s
  refine ⟨hclose.trans h, ?_⟩
  apply onopenHandler_latched_noWelcome
  rw [toggleSession_hasWelcomed, hclose, h]

/-- Witness for C9: a welcomed object, closed, then reconnected. -/
theorem close_keeps_welcome_latch_witness :
    (closeConnection { initialState with hasWelcomed := true }).1.hasWelcomed = true ∧
    countWelcome (onopenHandler (toggleSession oracleConnectOk
      (closeConnection { initialState with hasWelcomed := true }).1).1).2 = 0 :=
  close_keeps_welcome_latch oracleConnectOk
    { initialState with hasWelcomed := true } rfl

/-- C1 counterexample: in the spec's own scenario (credential `ek_123`
granted, then `getUserMedia` rejects) the run does not end fully torn down:
the `toggleSession` catch only reports the failure, leaving the freshly
created transport and data channel allocated and un-closed. -/
theorem toggleSession_mediaDenied_cex :
    ¬ fullyTornDown (toggleSession oracleMediaDenied initialState).1 ∧
    (toggleSession oracleMediaDenied initialState).1.peerConnection =
      some ⟨[], false, none, none⟩ ∧
    (toggleSession oracleMediaDenied initialState).1.dataChannel =
      some ⟨ChanState.connecting⟩ ∧
    (toggleSession oracleMediaDenied initialState).1.status =
      "Connection failed: Permission denied" := by
  refine ⟨?_, rfl, rfl, rfl⟩
  intro h
  have h1 : (toggleSession oracleMediaDenied initialState).1.peerConnection =
      some ⟨[], false, none, none⟩ := rfl
  rw [h.1] at h1
  exact Option.noConfusion h1

/-- C1 amended: when `getUserMedia` rejects after a successful credential
fetch, no capture stream is stored and zero tracks are attached to the
transport, the session is not marked connected, and the error is reported;
but the session is not fully torn down — the transport and the data channel
remain allocated (un-closed) until a later `closeConnection`. -/
theorem toggleSession_mediaDenied (o : Oracle) (s : SessionState)
    (tok m : String) (hc : s.isConnected = false) (hms : s.mediaStream = none)
    (hok : getEphemeralKey o.auth = Except.ok tok)
    (hmedia : o.userMedia = Except.error m) :
    (toggleSession o s).1.peerConnection = some ⟨[], false, none, none⟩ ∧
    (toggleSession o s).1.mediaStream = none ∧
    (toggleSession o s).1.isConnected = false ∧
    (toggleSession o s).1.dataChannel = some ⟨ChanState.connecting⟩ ∧
    (toggleSession o s).1.status = "Connection failed: " ++ m := by
  refine ⟨?_, ?_, ?_, ?_, ?_⟩ <;>
    simp [toggleSession, hc, hok, setupWebRTC, setupMicrophone, hmedia,
      setStatus, hms]

/-- Witness for the amended C1 at the spec's scenario inputs. -/
theorem toggleSession_mediaDenied_witness :
    (toggleSession oracleMediaDenied initialState).1.peerConnection =
      some ⟨[], false, none, none⟩ ∧
    (toggleSession oracleMediaDenied initialState).1.mediaStream = none ∧
    (toggleSession oracleMediaDenied initialState).1.isConnected = false ∧
    (toggleSession oracleMediaDenied initialState).1.dataChannel =
      some ⟨ChanState.connecting⟩ ∧
    (toggleSession oracleMediaDenied initialState).1.status =
      "Connection failed: " ++ "Permission denied" :=
  toggleSession_mediaDenied oracleMediaDenied initialState "ek_123"
    "Permission denied" rfl rfl rfl rfl

/-- C6: a `response.done` event whose output holds exactly one well-formed
`message` item (its first content part carries non-empty text) and one
well-formed `function_call` item (decodable arguments, a declared tool
name), in either order, makes the dispatcher walk the whole array, append
exactly one assistant chat entry, invoke the named tool exactly once with
the decoded arguments, and finish without throwing. -/
theorem responseDone_message_and_call (pa : String → Option ToolArgs)
    (s : DispatchState) (ev : RTEvent) (mi fi : RTOutputItem)
    (t rawArgs : String) (args : ToolArgs)
    (hm : mi.type = "message") (ht : contentText mi = some t) (ht0 : t ≠ "")
    (hf : fi.type = "function_call") (hraw : fi.arguments = some rawArgs)
    (hargs : pa rawArgs = some args)
    (hname : fi.name = some "getWeatherData" ∨
      fi.name = some "getBrowserLocationWeatherData")
    (hty : ev.type = some "response.done")
    (hout : ev.response = some ⟨some [mi, fi]⟩ ∨
      ev.response = some ⟨some [fi, mi]⟩) :
    handleMessage pa (some ev) s =
      ({ s with chat := s.chat ++ [⟨t, Sender.ai⟩] },
        resolveTool fi.name args, none) ∧
    (resolveTool fi.name args).length = 1 := by
  constructor
  · rcases hout with hr | hr <;>
      simp [handleMessage, hty, hr, processOutput, hm, ht, ht0, hf, hraw,
        hargs, jsTruthy, jsCoalesce, addMessage]
  · rcases hname with hn | hn <;> simp [resolveTool, hn]

/-- Witness for C6 at a concrete event. -/
theorem responseDone_message_and_call_witness :
    handleMessage
      (fun r => if r = "args1" then
        some ⟨some 1, some 2, some "Paris"⟩ else none)
      (some ⟨some "response.done", none, none,
        some ⟨some [⟨"message", some [⟨some "Hello"⟩], none, none⟩,
          ⟨"function_call", none, some "getWeatherData", some "args1"⟩]⟩⟩)
      ⟨[], "Connected"⟩ =
      ({ chat := [] ++ [⟨"Hello", Sender.ai⟩], status := "Connected" },
        resolveTool (some "getWeatherData") ⟨some 1, some 2, some "Paris"⟩,
        none) ∧
    (resolveTool (some "getWeatherData") ⟨some 1, some 2, some "Paris"⟩).length
      = 1 :=
  responseDone_message_and_call
    (fun r => if r = "args1" then some ⟨some 1, some 2, some "Paris"⟩ else none)
    ⟨[], "Connected"⟩
    ⟨some "response.done", none, none,
      some ⟨some [⟨"message", some [⟨some "Hello"⟩], none, none⟩,
        ⟨"function_call", none, some "getWeatherData", some "args1"⟩]⟩⟩
    ⟨"message", some [⟨some "Hello"⟩], none, none⟩
    ⟨"function_call", none, some "getWeatherData", some "args1"⟩
    "Hello" "args1" ⟨some 1, some 2, some "Paris"⟩
    rfl rfl (by decide) rfl rfl (by simp) (Or.inl rfl) rfl (Or.inl rfl)

/-- C10 counterexample: `locationName = ""` is non-null, yet the truthiness
check `if (locationName)` skips geocoding entirely — the supplied `lat`/`lon`
are used unchanged even though the geocoder has a first result `(10, 20)`. -/
theorem getWeatherData_emptyName_cex :
    getWeatherData (some [⟨10, 20⟩]) "fc" none (some 1) (some 2) (some "") =
      ([WAct.forecastFetch (some 1) (some 2)], Except.ok ()) := rfl

/-- C10 amended: for a truthy `locationName` (non-null and non-empty) the
supplied `lat`/`lon` are ignored and overwritten by the first geocoding
result before the forecast fetch; when the geocoding lookup yields no
results (absent or empty `results`), `getWeatherData` throws
`Location not found` and nothing is sent on the control channel. -/
theorem getWeatherData_geocode_overrides (geocode : Option (List GeoResult))
    (forecastBody : String) (dc : Option DataChan) (lat lon : Option Int)
    (nm : String) (hnm : nm ≠ "") :
    (∀ r rs, geocode = some (r :: rs) →
      getWeatherData geocode forecastBody dc lat lon (some nm) =
        (WAct.geocodeFetch nm ::
          WAct.forecastFetch (some r.latitude) (some r.longitude) ::
            (sendDataToAPI dc "weather" forecastBody).map WAct.send,
          Except.ok ())) ∧
    ((geocode = none ∨ geocode = some []) →
      getWeatherData geocode forecastBody dc lat lon (some nm) =
        ([WAct.geocodeFetch nm], Except.error "Location not found")) := by
  constructor
  · intro r rs h
    subst h
    simp [getWeatherData, hnm]
  · rintro (rfl | rfl) <;> simp [getWeatherData, hnm]

/-- Witness for the amended C10: geocoder answers `(10, 20)` for `Paris`,
the supplied `(1, 2)` being discarded. -/
theorem getWeatherData_geocode_overrides_witness :
    (∀ r rs, (some [(⟨10, 20⟩ : GeoResult)] : Option (List GeoResult)) =
        some (r :: rs) →
      getWeatherData (some [⟨10, 20⟩]) "fc" none (some 1) (some 2)
          (some "Paris") =
        (WAct.geocodeFetch "Paris" ::
          WAct.forecastFetch (some r.latitude) (some r.longitude) ::
            (sendDataToAPI none "weather" "fc").map WAct.send,
          Except.ok ())) ∧
    (((some [(⟨10, 20⟩ : GeoResult)] : Option (List GeoResult)) = none ∨
        (some [(⟨10, 20⟩ : GeoResult)] : Option (List GeoResult)) = some []) →
      getWeatherData (some [⟨10, 20⟩]) "fc" none (some 1) (some 2)
          (some "Paris") =
        ([WAct.geocodeFetch "Paris"], Except.error "Location not found")) :=
  getWeatherData_geocode_overrides (some [⟨10, 20⟩]) "fc" none (some 1)
    (some 2) "Paris" (by decide)

end Realtime
